import Mathlib

/-!
Verification development for the get-qr-mail server (three JS variants:
`src/server.js` single-cache variant, `src/unnamed/part_000` async per-user
variant, `src/unnamed/part_001` sync per-user variant).

Strings manipulated as paths are modelled as lists of characters; a filesystem
path is a list of segments (relative to the root, the base directory being
absolute). Node's `path.join` concatenates and then normalizes the path,
collapsing `.`, empty segments and `..`; `normStack` models that normalization
for POSIX paths with an absolute base (a `..` above the root is dropped).
-/

namespace GetQrMail

/-- Splits a character list on the character `/`, accumulating the current
segment in reverse; models `String.prototype.split('/')`. -/
def splitSlashAux : List Char → List Char → List (List Char)
  | cur, [] => [cur.reverse]
  | cur, c :: cs =>
    if c = '/' then cur.reverse :: splitSlashAux [] cs
    else splitSlashAux (c :: cur) cs

/-- Segments of a POSIX path string. -/
def splitSlash (s : List Char) : List (List Char) := splitSlashAux [] s

/-- Path normalization over segments, as performed by Node `path.join` /
`path.normalize` on an absolute path: empty and `.` segments vanish, `..`
removes the previous segment (or is dropped at the root). The first argument
is the stack of already-normalized segments, in reverse order. -/
def normStack : List (List Char) → List (List Char) → List (List Char)
  | stack, [] => stack
  | stack, seg :: rest =>
    if seg = [] ∨ seg = ['.'] then normStack stack rest
    else if seg = ['.', '.'] then normStack stack.tail rest
    else normStack (seg :: stack) rest

/-- `path.join(dir, rel)` where `dir` is the (absolute) base directory given
as segments and `rel` a relative path string: concatenate, then normalize. -/
def pathJoin (dir : List (List Char)) (rel : List Char) : List (List Char) :=
  (normStack [] (dir ++ splitSlash rel)).reverse

/-- The file name `token-<name>.json` built by `getTokenPathForUser`. -/
def tokenFileName (name : List Char) : List Char :=
  "token-".data ++ name ++ ".json".data

/-- `getTokenPathForUser(name)` = `path.join(__dirname, "token-" + name + ".json")`
(src/unnamed/part_000 lines 30-32, src/unnamed/part_001 lines 29-31);
`dir` stands for `__dirname`. -/
def getTokenPathForUser (dir : List (List Char)) (name : List Char) :
    List (List Char) :=
  pathJoin dir (tokenFileName name)

/-- The OAuth2 token material persisted in `token-<name>.json`. Only the
fields the code inspects are modelled; `refresh_token` may be absent on the
stored object (JS `undefined`). -/
structure Tokens where
  access_token : Option String
  refresh_token : Option String
deriving DecidableEq

/-- The token files on disk, keyed by (normalized) path. -/
abbrev TokenStore : Type := List (List Char) → Option Tokens

/-- `fs.writeFileSync(getTokenPathForUser(name), JSON.stringify(tokens))`:
overwrites the token file at the derived path. -/
def save (dir : List (List Char)) (name : List Char) (t : Tokens)
    (σ : TokenStore) : TokenStore :=
  fun p => if p = getTokenPathForUser dir name then some t else σ p

/-- `fs.readFileSync(getTokenPathForUser(name))` followed by `JSON.parse`:
reads the token file at the derived path (absence as `none`). -/
def load (dir : List (List Char)) (name : List Char) (σ : TokenStore) :
    Option Tokens :=
  σ (getTokenPathForUser dir name)

/-- Filesystem error codes distinguished by Node (`err.code`). -/
inductive FsErrorCode where
  | enoent
  | eacces
deriving DecidableEq

/-- A thrown JS exception relevant here: a filesystem error from
`fs.readFileSync` / `fs.readFile`, or a `SyntaxError` from `JSON.parse`. -/
inductive JsError where
  | fsError (code : FsErrorCode)
  | syntaxError
deriving DecidableEq

/-- The per-user OAuth2 client. A freshly constructed `google.auth.OAuth2`
carries no token material; restored credentials are modelled as
`some tokens`, a fresh (or failed-restore) client as `none` (on which the
JS check `!client.credentials || !client.credentials.refresh_token` is
truthy either way). -/
structure OAuth2Client where
  credentials : Option Tokens
deriving DecidableEq

/-- The body of the `try` block in `createOAuth2ClientForUser`
(part_001 lines 42-45 / part_000 lines 47-51): read the token file, then
`JSON.parse` it; either step may throw. `read` is the outcome of the
`readFileSync`, `parse` models `JSON.parse` on the file content. -/
def tryReadTokens (read : Except JsError String)
    (parse : String → Except JsError Tokens) : Except JsError Tokens :=
  match read with
  | .error e => .error e
  | .ok s => parse s

/-- `createOAuth2ClientForUser(name)` (part_001 lines 36-51, part_000
lines 39-57): builds the client and installs stored credentials; the
surrounding `catch (e) { /* ignore */ }` swallows EVERY exception of the
try block, leaving the client without credentials. -/
def createOAuth2ClientForUser (read : Except JsError String)
    (parse : String → Except JsError Tokens) : OAuth2Client :=
  { credentials :=
      match tryReadTokens read parse with
      | .ok t => some t
      | .error _ => none }

/-- JS truthiness of `client.credentials && client.credentials.refresh_token`:
true iff credentials were restored and carry a refresh token that is a
non-empty string (`""` and `undefined` are falsy). -/
def hasNonEmptyRefreshToken (c : Option Tokens) : Bool :=
  match c with
  | none => false
  | some t =>
    match t.refresh_token with
    | none => false
    | some s => !s.isEmpty

/-- The spec's `isAuthorized(u)`: the gate at the top of `/qr/:name`
(part_001 lines 173-177, part_000 lines 199-203), applied to the client
restored for `u`. -/
def isAuthorized (read : Except JsError String)
    (parse : String → Except JsError Tokens) : Bool :=
  hasNonEmptyRefreshToken (createOAuth2ClientForUser read parse).credentials

/-- A normalized message record pushed by `getLatestEmails`. The `uuidv4()`
call is modelled by a draw from a fresh-identifier counter. -/
structure EmailRecord where
  id : Nat
  date : String
  place : String
  person : String
  mail : String
  qrData : String
  subject : String
deriving DecidableEq

/-- The response of `/qr/:name`. -/
inductive QrResponse where
  | notAuthorized (message : String)
  | emails (records : List EmailRecord)
  | failed (message : String)
deriving DecidableEq

/-- HTTP status attached to each `/qr/:name` response by the handler. -/
def qrStatusOf : QrResponse → Nat
  | .notAuthorized _ => 400
  | .emails _ => 200
  | .failed _ => 500

/-- The 400 hint message of `/qr/:name` (part_001 line 175). -/
def notAuthMessage (name : String) : String :=
  "User \"" ++ name ++ "\" is not authenticated. Please visit /authenticate/"
    ++ name ++ " first."

/-- Result of one `/qr/:name` request: the response, plus whether
`getLatestEmails` (the Mailbox Query Service) was invoked. -/
structure QrResult where
  response : QrResponse
  mailboxInvoked : Bool
deriving DecidableEq

/-- The `/qr/:name` handler of the per-user variants (part_001 lines
168-189, part_000 lines 192-216): restore the user's client; if it carries
no non-empty refresh token answer 400 with the hint, otherwise hand the
client to `getLatestEmails` (`fetch` is that call's outcome). -/
def qrHandler (name : String) (read : Except JsError String)
    (parse : String → Except JsError Tokens)
    (fetch : Except String (List EmailRecord)) : QrResult :=
  let client := createOAuth2ClientForUser read parse
  if hasNonEmptyRefreshToken client.credentials then
    match fetch with
    | .ok es => { response := .emails es, mailboxInvoked := true }
    | .error e => { response := .failed e, mailboxInvoked := true }
  else
    { response := .notAuthorized (notAuthMessage name), mailboxInvoked := false }

/-- The response of `/oauth2callback`. -/
inductive CallbackResponse where
  | missingParam
  | success (user : String)
  | exchangeFailed
deriving DecidableEq

/-- HTTP status attached to each `/oauth2callback` response. -/
def callbackStatusOf : CallbackResponse → Nat
  | .missingParam => 400
  | .success _ => 200
  | .exchangeFailed => 500

/-- Outcome of one `/oauth2callback` request: the response, the resulting
token files, and whether the token exchange was attempted and the store
read / written during the request. -/
structure CallbackOutcome where
  response : CallbackResponse
  store : TokenStore
  exchangeAttempted : Bool
  storeRead : Bool
  storeWritten : Bool

/-- JS truthiness of an optional query parameter: `!code` is true when the
parameter is absent (`undefined`) or the empty string. -/
def jsFalsy (o : Option String) : Bool :=
  match o with
  | none => true
  | some s => s.isEmpty

/-- The `/oauth2callback` handler (part_001 lines 78-104, part_000 lines
90-121): reject when `!code || !state`; otherwise build the client for the
user named by `state` (which reads that user's token file), exchange the
code via `getToken`, and on success persist the tokens at
`getTokenPathForUser(state)`. No pending-authorization ledger exists: the
handler's only inputs are the request parameters, the exchange outcome and
the token files. -/
def oauth2callback (dir : List (List Char)) (code state : Option String)
    (getToken : String → Except JsError Tokens) (σ : TokenStore) :
    CallbackOutcome :=
  if jsFalsy code || jsFalsy state then
    ⟨.missingParam, σ, false, false, false⟩
  else
    let c := code.getD ""
    let userName := state.getD ""
    let _clientCreds := load dir userName.data σ
    match getToken c with
    | .error _ => ⟨.exchangeFailed, σ, true, true, false⟩
    | .ok tokens =>
      ⟨.success userName, save dir userName.data tokens σ, true, true, true⟩

/-- Process-wide mutable state of the single-cache variant
(src/server.js line 19): `let authClient = null`. -/
structure ServerState where
  authClient : Option OAuth2Client
deriving DecidableEq

/-- `getAuthClient()` of src/server.js lines 55-77: serve the cached client
if present; otherwise take the client restored from `token.json`
(`loadSaved`, absent when the file is unreadable) or run the interactive
flow (`flowClient`), and store the result in the process-wide slot. Note
the function receives no user identity. -/
def getAuthClient (loadSaved : Option OAuth2Client) (flowClient : OAuth2Client)
    (s : ServerState) : OAuth2Client × ServerState :=
  match s.authClient with
  | some c => (c, s)
  | none =>
    let client :=
      match loadSaved with
      | some c => c
      | none => flowClient
    (client, ⟨some client⟩)

/-- The client used to serve `/qr/:name` in src/server.js lines 149-169:
the handler calls `getAuthClient()` — `name` is read from the route but
never passed to the authorization layer. -/
def qrServeClient (name : String) (loadSaved : Option OAuth2Client)
    (flowClient : OAuth2Client) (s : ServerState) : OAuth2Client × ServerState :=
  let _ := name
  getAuthClient loadSaved flowClient s

/-- One client key of `credentials.json` (`keys.web` or `keys.installed`). -/
structure ClientKey where
  client_id : String
  client_secret : String
  redirect_uris : List String
deriving DecidableEq

/-- The parsed `credentials.json` artifact. -/
structure CredentialsFile where
  web : Option ClientKey
  installed : Option ClientKey
deriving DecidableEq

/-- Whether the process reaches `app.listen` or runs `process.exit(1)`
during the startup credentials load. -/
inductive StartResult where
  | started (credentials : CredentialsFile)
  | exited
deriving DecidableEq

/-- Startup load of part_001 lines 14-21: `fs.readFileSync` then
`JSON.parse`, `process.exit(1)` when either throws. -/
def startupLoadSync (read : Except JsError String)
    (parse : String → Except JsError CredentialsFile) : StartResult :=
  match read with
  | .error _ => .exited
  | .ok s =>
    match parse s with
    | .error _ => .exited
    | .ok c => .started c

/-- The string a pending JS Promise coerces to when passed to
`JSON.parse`. -/
def promiseString : String := "[object Promise]"

/-- Startup load of part_000 lines 15-22: `fs.readFile` (the promises API)
is called WITHOUT `await`, so `data` is a pending Promise whatever the file
holds; `JSON.parse(data)` coerces it to `"[object Promise]"` and parses
that. The `read` outcome of the file is never consulted. -/
def startupLoadAsyncVariant (read : Except JsError String)
    (parse : String → Except JsError CredentialsFile) : StartResult :=
  let _ := read
  match parse promiseString with
  | .error _ => .exited
  | .ok c => .started c

/-- The parameters passed to `oAuth2Client.generateAuthUrl` — the consent
URL returned to the browser is the provider URL carrying exactly these
query parameters. -/
structure AuthUrlParams where
  access_type : String
  prompt : String
  scope : List String
  state : String
deriving DecidableEq

/-- The scopes requested (part_001 line 24 / part_000 line 25). -/
def SCOPES : List String := ["https://www.googleapis.com/auth/gmail.readonly"]

/-- The response of `/authenticate/:name`: a redirect to the consent URL
(identified by its `generateAuthUrl` parameters) or the 500 error page. -/
inductive AuthResponse where
  | redirect (url : AuthUrlParams)
  | errorPage
deriving DecidableEq

/-- The `/authenticate/:name` handler (part_001 lines 56-73, part_000
lines 63-83): `generateAuthUrl({ access_type, prompt, scope, state })`
with the literal values of the source. -/
def authenticateHandler (userName : String) : AuthResponse :=
  .redirect { access_type := "offline", prompt := "consent",
              scope := SCOPES, state := userName }

/-- One Gmail message header (`{ name, value }`). -/
structure Header where
  name : String
  value : String
deriving DecidableEq

/-- One entry of the `users.messages.list` response. -/
structure MsgRef where
  id : String
deriving DecidableEq

/-- `headers.find(h => h.name === n)?.value`. -/
def findHeader (hs : List Header) (n : String) : Option String :=
  match hs.find? fun h => h.name == n with
  | some h => some h.value
  | none => none

/-- Subject extraction: the Subject header's value, else `'No Subject'`. -/
def extractSubject (hs : List Header) : String :=
  match findHeader hs "Subject" with
  | some v => v
  | none => "No Subject"

/-- Date extraction: `new Date(value).toISOString()` on the Date header
(`toIso` models that conversion, which throws a RangeError on an invalid
date), else `'Unknown Date'`. -/
def extractDate (toIso : String → Except JsError String) (hs : List Header) :
    Except JsError String :=
  match findHeader hs "Date" with
  | some v => toIso v
  | none => .ok "Unknown Date"

/-- The deep link pushed as `mail`. -/
def mailLink (msgId : String) : String :=
  "https://mail.google.com/mail/u/0/#inbox/" ++ msgId

/-- The record pushed onto `emailData` for one message, with the fixed
placeholder `place` and `QR-data` values of the source; `uuid` is the
fresh-identifier draw standing for `uuidv4()`. -/
def buildRecord (uuid : Nat) (date : String) (name : String) (msgId : String)
    (subject : String) : EmailRecord :=
  { id := uuid, date := date, place := "shibuya-OOOO", person := name,
    mail := mailLink msgId, qrData := "abcdefghijk0123456", subject := subject }

/-- The per-message loop of `getLatestEmails` (part_001 lines 125-156,
src/server.js lines 103-136): each message's metadata fetch and record
construction sit in their own `try`; a throw there (metadata fetch failure
or date-conversion failure) is logged and the message dropped, the loop
continues. Returns the records pushed plus the advanced identifier
counter. -/
def processMessages (toIso : String → Except JsError String)
    (getMsg : String → Except JsError (List Header)) (name : String) :
    List MsgRef → Nat → List EmailRecord × Nat
  | [], ctr => ([], ctr)
  | m :: rest, ctr =>
    match getMsg m.id with
    | .error _ => processMessages toIso getMsg name rest ctr
    | .ok hs =>
      match extractDate toIso hs with
      | .error _ => processMessages toIso getMsg name rest ctr
      | .ok date =>
        let r := buildRecord ctr date name m.id (extractSubject hs)
        let p := processMessages toIso getMsg name rest (ctr + 1)
        (r :: p.1, p.2)

/-- `getLatestEmails(auth, name)` (part_001 lines 109-163, src/server.js
lines 86-143): a failure of `users.messages.list` (`listResp`) is rethrown
to the caller; an absent or empty listing yields `[]`; otherwise the
per-message loop runs with its per-message recovery. -/
def getLatestEmails (toIso : String → Except JsError String)
    (listResp : Except JsError (Option (List MsgRef)))
    (getMsg : String → Except JsError (List Header)) (name : String)
    (ctr : Nat) : Except JsError (List EmailRecord × Nat) :=
  match listResp with
  | .error e => .error e
  | .ok none => .ok ([], ctr)
  | .ok (some []) => .ok ([], ctr)
  | .ok (some msgs) => .ok (processMessages toIso getMsg name msgs ctr)

/-! Concrete sample environments used to instantiate the theorems. -/

/-- A sample token record with a non-empty refresh token. -/
def demoTokens : Tokens := ⟨some "at", some "rt"⟩

/-- A token exchange that succeeds with `demoTokens`. -/
def exchangeOk : String → Except JsError Tokens := fun _ => .ok demoTokens

/-- A token exchange rejected by the provider. -/
def exchangeRejected : String → Except JsError Tokens :=
  fun _ => .error .syntaxError

/-- A store with no token files. -/
def emptyStore : TokenStore := fun _ => none

/-- A `JSON.parse` model that rejects every content. -/
def parseFailDemo : String → Except JsError Tokens :=
  fun _ => .error .syntaxError

/-- A sample client key of `credentials.json`. -/
def demoClientKey : ClientKey :=
  ⟨"id", "secret", ["http://localhost:5001/oauth2callback"]⟩

/-- A sample well-formed `credentials.json`. -/
def demoCredentialsFile : CredentialsFile := ⟨some demoClientKey, none⟩

/-- A `JSON.parse` model for `credentials.json` accepting one valid text. -/
def parseCredsDemo : String → Except JsError CredentialsFile :=
  fun s => if s = "valid-credentials-json" then .ok demoCredentialsFile
           else .error .syntaxError

/-- A date conversion that succeeds on every header value. -/
def isoIdDemo : String → Except JsError String := fun s => .ok s

/-- Sample headers of the first listed message. -/
def hdrsDemo1 : List Header := [⟨"Subject", "s1"⟩, ⟨"Date", "d1"⟩]

/-- Sample headers of the third listed message. -/
def hdrsDemo3 : List Header := [⟨"Subject", "s3"⟩, ⟨"Date", "d3"⟩]

/-- A metadata fetch that fails exactly on message `m2`. -/
def getMsgDemo : String → Except JsError (List Header) := fun i =>
  if i = "m1" then .ok hdrsDemo1
  else if i = "m2" then .error (.fsError .eacces)
  else .ok hdrsDemo3

/-! Path lemmas -/

/-- One-step unfolding of `normStack` on a cons. -/
theorem normStack_cons (stack : List (List Char)) (seg : List Char)
    (rest : List (List Char)) :
    normStack stack (seg :: rest) =
      if seg = [] ∨ seg = ['.'] then normStack stack rest
      else if seg = ['.', '.'] then normStack stack.tail rest
      else normStack (seg :: stack) rest := rfl

/-- Normalization processes a concatenation left to right. -/
theorem normStack_append (xs ys stack : List (List Char)) :
    normStack stack (xs ++ ys) = normStack (normStack stack xs) ys := by
  induction xs generalizing stack with
  | nil => rfl
  | cons seg rest ih =>
    by_cases h0 : seg = [] ∨ seg = ['.']
    · rw [List.cons_append, normStack_cons, if_pos h0, normStack_cons, if_pos h0,
        ih]
    · by_cases h2 : seg = ['.', '.']
      · rw [List.cons_append, normStack_cons, if_neg h0, if_pos h2,
          normStack_cons, if_neg h0, if_pos h2, ih]
      · rw [List.cons_append, normStack_cons, if_neg h0, if_neg h2,
          normStack_cons, if_neg h0, if_neg h2, ih]

/-- A single ordinary segment is pushed on the stack. -/
theorem normStack_single_normal (stack : List (List Char)) (seg : List Char)
    (h0 : ¬(seg = [] ∨ seg = ['.'])) (h2 : seg ≠ ['.', '.']) :
    normStack stack [seg] = seg :: stack := by
  rw [normStack_cons, if_neg h0, if_neg h2]; rfl

/-- Splitting a slash-free string yields the single accumulated segment. -/
theorem splitSlashAux_no_slash (s : List Char) :
    ∀ cur, '/' ∉ s → splitSlashAux cur s = [cur.reverse ++ s] := by
  induction s with
  | nil => intro cur _; simp [splitSlashAux]
  | cons c cs ih =>
    intro cur h
    have hc : ¬(c = '/') := fun hc => h (by simp [hc])
    have hcs : '/' ∉ cs := fun hm => h (List.mem_cons_of_mem _ hm)
    simp [splitSlashAux, hc, ih (c :: cur) hcs, List.append_assoc]

/-- A slash-free path string is a single segment. -/
theorem splitSlash_singleton (s : List Char) (h : '/' ∉ s) :
    splitSlash s = [s] := by
  simpa using splitSlashAux_no_slash s [] h

/-- `token-<name>.json` contains no slash when `name` contains none. -/
theorem slash_not_mem_tokenFileName (name : List Char) (h : '/' ∉ name) :
    '/' ∉ tokenFileName name := by
  intro hm
  rcases List.mem_append.mp hm with hm | hm
  · rcases List.mem_append.mp hm with hm | hm
    · exact absurd hm (by decide)
    · exact h hm
  · exact absurd hm (by decide)

/-- `tokenFileName` starts with the character `t`. -/
theorem tokenFileName_eq_cons (name : List Char) :
    tokenFileName name = 't' :: (("oken-".data ++ name) ++ ".json".data) := rfl

/-- `token-<name>.json` is a plain segment: not empty, not `.`, not `..`. -/
theorem tokenFileName_normal (name : List Char) :
    ¬(tokenFileName name = [] ∨ tokenFileName name = ['.']) ∧
      tokenFileName name ≠ ['.', '.'] := by
  rw [tokenFileName_eq_cons]
  refine ⟨fun h => ?_, fun h => ?_⟩
  · rcases h with h | h
    · exact List.cons_ne_nil _ _ h
    · exact absurd (List.head_eq_of_cons_eq h) (by decide)
  · exact absurd (List.head_eq_of_cons_eq h) (by decide)

/-- The file-name builder is injective outright. -/
theorem tokenFileName_injective (n1 n2 : List Char)
    (h : tokenFileName n1 = tokenFileName n2) : n1 = n2 := by
  simp only [tokenFileName] at h
  exact List.append_cancel_left (List.append_cancel_right h)

/-- For a slash-free name the derived path is the normalized base directory
with the token file name appended as a final segment. -/
theorem getTokenPathForUser_no_slash (dir : List (List Char))
    (name : List Char) (h : '/' ∉ name) :
    getTokenPathForUser dir name
      = (normStack [] dir).reverse ++ [tokenFileName name] := by
  unfold getTokenPathForUser pathJoin
  rw [splitSlash_singleton _ (slash_not_mem_tokenFileName name h),
    normStack_append,
    normStack_single_normal _ _ (tokenFileName_normal name).1
      (tokenFileName_normal name).2,
    List.reverse_cons]

/-! Claim theorems -/

/-- C1 (amended): for identities containing no path separator `/`, the key
derivation `getTokenPathForUser` is injective, and therefore `save(u2, g2)`
leaves the stored grant of `u1` unchanged: `load(u1)` after the save equals
`load(u1)` before it. (As stated over ALL distinct identities the claim is
false: `path.join` normalizes `..` segments, see `tokenPath_collision`.) -/
theorem tokenPath_injective_and_frame (dir : List (List Char))
    (n1 n2 : List Char) (g2 : Tokens) (σ : TokenStore)
    (h1 : '/' ∉ n1) (h2 : '/' ∉ n2) (hne : n1 ≠ n2) :
    getTokenPathForUser dir n1 ≠ getTokenPathForUser dir n2 ∧
      load dir n1 (save dir n2 g2 σ) = load dir n1 σ := by
  have hp : getTokenPathForUser dir n1 ≠ getTokenPathForUser dir n2 := by
    rw [getTokenPathForUser_no_slash dir n1 h1,
      getTokenPathForUser_no_slash dir n2 h2]
    intro h
    have hf : tokenFileName n1 = tokenFileName n2 := by
      have := List.append_cancel_left h
      simpa using this
    exact hne (tokenFileName_injective n1 n2 hf)
  refine ⟨hp, ?_⟩
  simp only [load, save, if_neg hp]

/-- Witness for `tokenPath_injective_and_frame` at `alice` / `bob` with the
empty base directory and empty store. -/
theorem tokenPath_injective_and_frame_witness :
    ('/' ∉ "alice".data ∧ '/' ∉ "bob".data ∧ "alice".data ≠ "bob".data) ∧
      (getTokenPathForUser [] "alice".data ≠ getTokenPathForUser [] "bob".data ∧
        load [] "alice".data
            (save [] "bob".data ⟨none, some "r"⟩ (fun _ => none))
          = load [] "alice".data (fun _ => none)) :=
  ⟨⟨by decide, by decide, by decide⟩,
    tokenPath_injective_and_frame [] "alice".data "bob".data ⟨none, some "r"⟩
      (fun _ => none) (by decide) (by decide) (by decide)⟩

/-- C1 counterexample: the two DISTINCT identities `b` and `a/../token-b`
derive the SAME storage path (Node `path.join` collapses the `..`), so a
save under the second overwrites the stored grant of the first — the
injectivity and frame properties fail as universally stated. -/
theorem tokenPath_collision :
    "b".data ≠ "a/../token-b".data ∧
      getTokenPathForUser ["srv".data, "app".data] "b".data
        = getTokenPathForUser ["srv".data, "app".data] "a/../token-b".data ∧
      load ["srv".data, "app".data] "b".data
          (save ["srv".data, "app".data] "a/../token-b".data ⟨none, some "r"⟩
            (fun _ => none))
        ≠ load ["srv".data, "app".data] "b".data (fun _ => none) := by
  refine ⟨by decide, by decide, ?_⟩
  simp only [load, save]
  rw [if_pos (by decide)]
  decide

/-- C2: in the single-cache variant the served authorization client does not
depend on the requesting user: after any `/qr/:name` request the process-wide
cache holds the served client, and a subsequent request — with ANY other
name — is served that identical client (hence the same credentials). -/
theorem singleCache_client_shared (loadSaved : Option OAuth2Client)
    (flowClient : OAuth2Client) (n1 n2 : String) (s : ServerState) :
    (qrServeClient n2 loadSaved flowClient
        (qrServeClient n1 loadSaved flowClient s).2).1
      = (qrServeClient n1 loadSaved flowClient s).1 ∧
      (qrServeClient n1 loadSaved flowClient s).2.authClient
        = some (qrServeClient n1 loadSaved flowClient s).1 := by
  obtain ⟨a⟩ := s
  cases a with
  | some c => exact ⟨rfl, rfl⟩
  | none =>
    cases loadSaved with
    | some c => exact ⟨rfl, rfl⟩
    | none => exact ⟨rfl, rfl⟩

/-- C3: whenever the callback succeeds, the user it reports success for is
the literal `state` value, and the exchanged tokens are persisted at that
identity's key. The handler consults no pending-state ledger: its only
inputs are the request parameters, the exchange outcome and the token files,
so the theorem holds for every `state` whether or not `/authenticate/:name`
was ever visited for it. -/
theorem callback_persists_keyed_by_state (dir : List (List Char))
    (code state : Option String) (getToken : String → Except JsError Tokens)
    (σ : TokenStore) (u : String)
    (hsucc : (oauth2callback dir code state getToken σ).response
        = CallbackResponse.success u) :
    u = state.getD "" ∧
      ∃ tokens, getToken (code.getD "") = .ok tokens ∧
        load dir u.data (oauth2callback dir code state getToken σ).store
          = some tokens := by
  by_cases hf : (jsFalsy code || jsFalsy state) = true
  · exact absurd hsucc (by simp [oauth2callback, hf])
  · cases hx : getToken (code.getD "") with
    | error e => exact absurd hsucc (by simp [oauth2callback, hf, hx])
    | ok tokens =>
      have hu : u = state.getD "" := by
        have h := hsucc
        simp [oauth2callback, hf, hx] at h
        exact h.symm
      subst hu
      exact ⟨rfl, tokens, rfl, by simp [oauth2callback, hf, hx, load, save]⟩

/-- Witness for `callback_persists_keyed_by_state`: a successful callback
for `state = alice` with code `c0`. -/
theorem callback_persists_keyed_by_state_witness :
    ((oauth2callback [] (some "c0") (some "alice") exchangeOk emptyStore).response
        = CallbackResponse.success "alice") ∧
      ("alice" = (some "alice" : Option String).getD "" ∧
        ∃ tokens, exchangeOk ((some "c0" : Option String).getD "") = .ok tokens ∧
          load [] "alice".data
              (oauth2callback [] (some "c0") (some "alice") exchangeOk
                emptyStore).store
            = some tokens) :=
  ⟨by decide,
    callback_persists_keyed_by_state [] (some "c0") (some "alice") exchangeOk
      emptyStore "alice" (by decide)⟩

/-- C5: a callback request whose `code` or `state` is absent answers
`MissingParameter` with HTTP 400, and the Credential Store is untouched:
no token file is read or written and no exchange is attempted. -/
theorem callback_missing_param (dir : List (List Char))
    (code state : Option String) (getToken : String → Except JsError Tokens)
    (σ : TokenStore) (h : code = none ∨ state = none) :
    (oauth2callback dir code state getToken σ).response = .missingParam ∧
      callbackStatusOf (oauth2callback dir code state getToken σ).response
        = 400 ∧
      (oauth2callback dir code state getToken σ).store = σ ∧
      (oauth2callback dir code state getToken σ).exchangeAttempted = false ∧
      (oauth2callback dir code state getToken σ).storeRead = false ∧
      (oauth2callback dir code state getToken σ).storeWritten = false := by
  have hf : (jsFalsy code || jsFalsy state) = true := by
    rcases h with h | h <;> subst h <;> simp [jsFalsy]
  simp [oauth2callback, hf, callbackStatusOf]

/-- Witness for `callback_missing_param`: a callback with no `code`. -/
theorem callback_missing_param_witness :
    ((none : Option String) = none ∨ (some "alice" : Option String) = none) ∧
      ((oauth2callback [] none (some "alice") exchangeOk emptyStore).response
          = CallbackResponse.missingParam ∧
        callbackStatusOf
            (oauth2callback [] none (some "alice") exchangeOk
              emptyStore).response = 400 ∧
        (oauth2callback [] none (some "alice") exchangeOk emptyStore).store
          = emptyStore ∧
        (oauth2callback [] none (some "alice") exchangeOk
            emptyStore).exchangeAttempted = false ∧
        (oauth2callback [] none (some "alice") exchangeOk
            emptyStore).storeRead = false ∧
        (oauth2callback [] none (some "alice") exchangeOk
            emptyStore).storeWritten = false) :=
  ⟨Or.inl rfl,
    callback_missing_param [] none (some "alice") exchangeOk emptyStore
      (Or.inl rfl)⟩

/-- C10: when the provider token exchange throws, the callback answers the
failure (HTTP 500), nothing is written, and the token files — in particular
the grant of the identity resolved from `state` — are exactly what they were
before the request. -/
theorem callback_exchange_failure_no_write (dir : List (List Char))
    (code state : Option String) (getToken : String → Except JsError Tokens)
    (σ : TokenStore) (e : JsError)
    (hc : jsFalsy code = false) (hs : jsFalsy state = false)
    (hx : getToken (code.getD "") = .error e) :
    (oauth2callback dir code state getToken σ).response = .exchangeFailed ∧
      callbackStatusOf (oauth2callback dir code state getToken σ).response
        = 500 ∧
      (oauth2callback dir code state getToken σ).storeWritten = false ∧
      (oauth2callback dir code state getToken σ).store = σ ∧
      load dir (state.getD "").data
          (oauth2callback dir code state getToken σ).store
        = load dir (state.getD "").data σ := by
  simp [oauth2callback, hc, hs, hx, callbackStatusOf]

/-- Witness for `callback_exchange_failure_no_write`: a rejected code for
`state = alice`. -/
theorem callback_exchange_failure_no_write_witness :
    (jsFalsy (some "badcode") = false ∧ jsFalsy (some "alice") = false ∧
        exchangeRejected ((some "badcode" : Option String).getD "")
          = .error .syntaxError) ∧
      ((oauth2callback [] (some "badcode") (some "alice") exchangeRejected
            emptyStore).response = CallbackResponse.exchangeFailed ∧
        callbackStatusOf
            (oauth2callback [] (some "badcode") (some "alice") exchangeRejected
              emptyStore).response = 500 ∧
        (oauth2callback [] (some "badcode") (some "alice") exchangeRejected
            emptyStore).storeWritten = false ∧
        (oauth2callback [] (some "badcode") (some "alice") exchangeRejected
            emptyStore).store = emptyStore ∧
        load [] ((some "alice" : Option String).getD "").data
            (oauth2callback [] (some "badcode") (some "alice") exchangeRejected
              emptyStore).store
          = load [] ((some "alice" : Option String).getD "").data emptyStore) :=
  ⟨⟨by decide, by decide, rfl⟩,
    callback_exchange_failure_no_write [] (some "badcode") (some "alice")
      exchangeRejected emptyStore .syntaxError (by decide) (by decide) rfl⟩

/-- The boolean gate is true exactly when the credentials carry a refresh
token that is a non-empty string. -/
theorem hasNonEmptyRefreshToken_iff (c : Option Tokens) :
    hasNonEmptyRefreshToken c = true ↔
      ∃ t s, c = some t ∧ t.refresh_token = some s ∧ s ≠ "" := by
  constructor
  · intro h
    cases c with
    | none => simp [hasNonEmptyRefreshToken] at h
    | some t =>
      cases hrt : t.refresh_token with
      | none => simp [hasNonEmptyRefreshToken, hrt] at h
      | some s =>
        simp only [hasNonEmptyRefreshToken, hrt] at h
        refine ⟨t, s, rfl, hrt, fun heq => ?_⟩
        rw [heq] at h
        exact absurd h (by decide)
  · rintro ⟨t, s, rfl, hrt, hne⟩
    have hse : s.isEmpty = false := by
      cases hval : s.isEmpty
      · rfl
      · exact absurd ((String.isEmpty_iff s).mp hval) hne
    simp [hasNonEmptyRefreshToken, hrt, hse]

/-- C4: `isAuthorized(u)` is true iff the client restored for `u` carries a
refresh token that is a non-empty string; and for a user with no stored
grant (the token-file read fails with ENOENT) the `/qr/:name` request
answers the NotAuthorized error — HTTP 400 with the hint message naming
`/authenticate/:name` — without invoking the Mailbox Query Service. -/
theorem isAuthorized_iff_and_notAuthorized (read : Except JsError String)
    (parse parse2 : String → Except JsError Tokens) (name : String)
    (fetch : Except String (List EmailRecord)) :
    (isAuthorized read parse = true ↔
        ∃ t s, (createOAuth2ClientForUser read parse).credentials = some t ∧
          t.refresh_token = some s ∧ s ≠ "") ∧
      isAuthorized (.error (.fsError .enoent)) parse2 = false ∧
      (qrHandler name (.error (.fsError .enoent)) parse2 fetch).response
        = .notAuthorized (notAuthMessage name) ∧
      qrStatusOf
          (qrHandler name (.error (.fsError .enoent)) parse2 fetch).response
        = 400 ∧
      (qrHandler name (.error (.fsError .enoent)) parse2 fetch).mailboxInvoked
        = false :=
  ⟨hasNonEmptyRefreshToken_iff _, rfl, rfl, rfl, rfl⟩

/-- Witness for `isAuthorized_iff_and_notAuthorized` at a concrete unseen
user `alice`. -/
theorem isAuthorized_iff_and_notAuthorized_witness :
    (isAuthorized (.error .syntaxError) parseFailDemo = true ↔
        ∃ t s, (createOAuth2ClientForUser (.error .syntaxError)
            parseFailDemo).credentials = some t ∧
          t.refresh_token = some s ∧ s ≠ "") ∧
      isAuthorized (.error (.fsError .enoent)) parseFailDemo = false ∧
      (qrHandler "alice" (.error (.fsError .enoent)) parseFailDemo
          (.ok [])).response = .notAuthorized (notAuthMessage "alice") ∧
      qrStatusOf (qrHandler "alice" (.error (.fsError .enoent)) parseFailDemo
          (.ok [])).response = 400 ∧
      (qrHandler "alice" (.error (.fsError .enoent)) parseFailDemo
          (.ok [])).mailboxInvoked = false :=
  isAuthorized_iff_and_notAuthorized (.error .syntaxError) parseFailDemo
    parseFailDemo "alice" (.ok [])

/-- C6 counterexample: a permission error (`EACCES`) on the token-file read
is swallowed by the catch-all exactly like "file not found" — the factory
returns the credential-less client instead of propagating a distinct
error. -/
theorem load_swallows_permission_error :
    createOAuth2ClientForUser (.error (.fsError .eacces)) parseFailDemo
        = createOAuth2ClientForUser (.error (.fsError .enoent)) parseFailDemo ∧
      (createOAuth2ClientForUser
          (.error (.fsError .eacces)) parseFailDemo).credentials = none :=
  ⟨rfl, rfl⟩

/-- C6 (amended): the credential load never throws — not-found IS returned
as the credential-less client — but every other failure (permission error,
undecodable content) is ALSO treated as absence by the catch-all, not
propagated. -/
theorem load_never_throws_all_absence (parse : String → Except JsError Tokens)
    (e : JsError) (s : String) (hp : parse s = .error e) :
    (createOAuth2ClientForUser (.error e) parse).credentials = none ∧
      (createOAuth2ClientForUser (.ok s) parse).credentials = none := by
  exact ⟨rfl, by simp [createOAuth2ClientForUser, tryReadTokens, hp]⟩

/-- Witness for `load_never_throws_all_absence`: undecodable content. -/
theorem load_never_throws_all_absence_witness :
    parseFailDemo "garbage" = .error .syntaxError ∧
      ((createOAuth2ClientForUser (.error .syntaxError)
            parseFailDemo).credentials = none ∧
        (createOAuth2ClientForUser (.ok "garbage")
            parseFailDemo).credentials = none) :=
  ⟨rfl, load_never_throws_all_absence parseFailDemo .syntaxError "garbage" rfl⟩

/-- C7 (code bug in part_000): the async variant's startup load calls
`fs.promises.readFile` without `await` and `JSON.parse`s the pending
Promise — which no JSON parser accepts — so the process exits even when
`credentials.json` is present and well-formed; the sync variant
(part_001) behaves as the claim states on the same input. -/
theorem startupAsync_exits_on_valid_config (goodContent : String)
    (creds : CredentialsFile)
    (parse : String → Except JsError CredentialsFile) (e : JsError)
    (hgood : parse goodContent = .ok creds)
    (hpromise : parse promiseString = .error e) :
    startupLoadAsyncVariant (.ok goodContent) parse = .exited ∧
      startupLoadSync (.ok goodContent) parse = .started creds := by
  constructor
  · simp [startupLoadAsyncVariant, hpromise]
  · simp [startupLoadSync, hgood]

/-- Witness for `startupAsync_exits_on_valid_config`: a parser accepting
one valid credentials text and rejecting everything else. -/
theorem startupAsync_exits_on_valid_config_witness :
    (parseCredsDemo "valid-credentials-json" = .ok demoCredentialsFile ∧
        parseCredsDemo promiseString = .error .syntaxError) ∧
      (startupLoadAsyncVariant (.ok "valid-credentials-json") parseCredsDemo
          = .exited ∧
        startupLoadSync (.ok "valid-credentials-json") parseCredsDemo
          = .started demoCredentialsFile) :=
  ⟨⟨rfl, rfl⟩,
    startupAsync_exits_on_valid_config "valid-credentials-json"
      demoCredentialsFile parseCredsDemo .syntaxError rfl rfl⟩

/-- C8: per-message failure recovery — for a listing of three messages
whose second metadata fetch fails, `getLatestEmails` succeeds with exactly
the two records for the first and third messages in listing order, each
carrying a freshly drawn identifier (and the two identifiers differ);
only a failure of the listing call itself propagates as an error. -/
theorem getLatestEmails_drops_failed_message
    (toIso : String → Except JsError String)
    (getMsg : String → Except JsError (List Header)) (name : String)
    (ctr : Nat) (m1 m2 m3 : MsgRef) (h1 h3 : List Header) (e : JsError)
    (d1 d3 : String)
    (hg1 : getMsg m1.id = .ok h1) (hg2 : getMsg m2.id = .error e)
    (hg3 : getMsg m3.id = .ok h3)
    (hd1 : extractDate toIso h1 = .ok d1)
    (hd3 : extractDate toIso h3 = .ok d3) :
    getLatestEmails toIso (.ok (some [m1, m2, m3])) getMsg name ctr
        = .ok ([buildRecord ctr d1 name m1.id (extractSubject h1),
                buildRecord (ctr + 1) d3 name m3.id (extractSubject h3)],
               ctr + 2) ∧
      (buildRecord ctr d1 name m1.id (extractSubject h1)).id
        ≠ (buildRecord (ctr + 1) d3 name m3.id (extractSubject h3)).id ∧
      (∀ e', getLatestEmails toIso (.error e') getMsg name ctr = .error e') := by
  refine ⟨?_, ?_, fun e' => rfl⟩
  · simp [getLatestEmails, processMessages, hg1, hg2, hg3, hd1, hd3]
  · simp only [buildRecord]
    omega

/-- Witness for `getLatestEmails_drops_failed_message`: messages `m1`,
`m2`, `m3` with `getMsgDemo` failing exactly on `m2`. -/
theorem getLatestEmails_drops_failed_message_witness :
    (getMsgDemo "m1" = .ok hdrsDemo1 ∧
        getMsgDemo "m2" = .error (.fsError .eacces) ∧
        getMsgDemo "m3" = .ok hdrsDemo3 ∧
        extractDate isoIdDemo hdrsDemo1 = .ok "d1" ∧
        extractDate isoIdDemo hdrsDemo3 = .ok "d3") ∧
      (getLatestEmails isoIdDemo (.ok (some [⟨"m1"⟩, ⟨"m2"⟩, ⟨"m3"⟩]))
            getMsgDemo "alice" 7
          = .ok ([buildRecord 7 "d1" "alice" (MsgRef.mk "m1").id
                    (extractSubject hdrsDemo1),
                  buildRecord (7 + 1) "d3" "alice" (MsgRef.mk "m3").id
                    (extractSubject hdrsDemo3)],
                 7 + 2) ∧
        (buildRecord 7 "d1" "alice" (MsgRef.mk "m1").id
              (extractSubject hdrsDemo1)).id
          ≠ (buildRecord (7 + 1) "d3" "alice" (MsgRef.mk "m3").id
              (extractSubject hdrsDemo3)).id ∧
        (∀ e', getLatestEmails isoIdDemo (.error e') getMsgDemo "alice" 7
            = .error e')) :=
  ⟨⟨rfl, rfl, rfl, rfl, rfl⟩,
    getLatestEmails_drops_failed_message isoIdDemo getMsgDemo "alice" 7
      ⟨"m1"⟩ ⟨"m2"⟩ ⟨"m3"⟩ hdrsDemo1 hdrsDemo3 (.fsError .eacces) "d1" "d3"
      rfl rfl rfl rfl rfl⟩

/-- C9: for every user the consent URL is generated requesting offline
access (`access_type = offline`, so a refresh token is issued), forcing the
consent step on every invocation (`prompt = consent`), and carrying exactly
the user identity as the `state` correlation parameter. -/
theorem authenticate_offline_consent_state (userName : String) :
    ∃ p : AuthUrlParams, authenticateHandler userName = .redirect p ∧
      p.access_type = "offline" ∧ p.prompt = "consent" ∧
      p.scope = SCOPES ∧ p.state = userName :=
  ⟨_, rfl, rfl, rfl, rfl, rfl⟩

end GetQrMail
